import Mathlib

/-!
# Verification of the `playwright-api` request-builder against its specification

This file gives a shallow embedding of `utils/request-handler.ts` (both the
logger-equipped `RequestHandler` and the plain variant) together with a model
of the `APILogger` collaborator (whose source file `utils/logger.ts` is not in
the repository snapshot; it is modelled from the specification).  The host
runtime's WHATWG `URL` class, used by `getUrl`, is modelled on a restricted but
faithful domain of absolute `http(s)` URLs.

Machine conventions:
* JavaScript objects used as JSON values become the inductive `Json`
  (numbers are modelled as integers; the claims under study never depend on
  non-integral numerics).
* The Playwright `APIRequestContext` is modelled as a function from the issued
  request descriptor (method, URL, headers, optional JSON data) to a response
  carrying a status and a fallible JSON accessor.
* TypeScript field mutation becomes explicit record update; a thrown error
  becomes an `Except.error` carrying the error message string.
-/

/-- JSON values as produced/consumed by the handler (JS objects/arrays/strings/
numbers/booleans/null; numbers restricted to integers). -/
inductive Json where
  | null
  | bool (b : Bool)
  | num (n : Int)
  | str (s : String)
  | arr (elems : List Json)
  | obj (fields : List (String × Json))

mutual

/-- Compact `JSON.stringify`-style rendering of a `Json` value (string escaping
is not modelled; log-format details are fixed by the model, see `APILogger`). -/
def Json.stringify : Json → String
  | .null => "null"
  | .bool b => if b then "true" else "false"
  | .num n => toString n
  | .str s => "\"" ++ s ++ "\""
  | .arr elems => "[" ++ Json.stringifyList elems ++ "]"
  | .obj fields => "\x7b" ++ Json.stringifyFields fields ++ "\x7d"

/-- Renders the comma-separated elements of a JSON array. -/
def Json.stringifyList : List Json → String
  | [] => ""
  | [j] => Json.stringify j
  | j :: rest => Json.stringify j ++ "," ++ Json.stringifyList rest

/-- Renders the comma-separated `"key":value` fields of a JSON object. -/
def Json.stringifyFields : List (String × Json) → String
  | [] => ""
  | [(k, v)] => "\"" ++ k ++ "\":" ++ Json.stringify v
  | (k, v) :: rest =>
      "\"" ++ k ++ "\":" ++ Json.stringify v ++ "," ++ Json.stringifyFields rest

end

/-- A value supplied in a `params()` mapping: a string or a number.  JavaScript
coerces the value to its string representation when it is appended to the
URL's search parameters. -/
inductive ParamValue where
  | str (s : String)
  | num (n : Int)
deriving DecidableEq, Repr

/-- JavaScript `String(value)` coercion for a `ParamValue`. -/
def ParamValue.toStr : ParamValue → String
  | .str s => s
  | .num n => toString n

/-- Modelled from the spec: one entry of the `APILogger`'s ordered record
(`utils/logger.ts` is not part of the source snapshot).  A tagged variant of
Request (method, url, headers, optional body) and Response (status, optional
body), per spec section 3. -/
inductive LogEntry where
  | request (method url : String) (headers : List (String × String)) (body : Option Json)
  | response (status : Nat) (body : Option Json)

/-- Modelled from the spec: the `APILogger` owns an append-only ordered
sequence of `LogEntry` (spec section 4.2). -/
structure APILogger where
  recentLogs : List LogEntry := []

/-- Modelled from the spec: `logRequest(method, url, headers, body?)` appends a
Request entry, with no other effect. -/
def APILogger.logRequest (l : APILogger) (method url : String)
    (headers : List (String × String)) (body : Option Json) : APILogger :=
  { recentLogs := l.recentLogs ++ [LogEntry.request method url headers body] }

/-- Modelled from the spec: `logResponse(status, body?)` appends a Response
entry, with no other effect. -/
def APILogger.logResponse (l : APILogger) (status : Nat) (body : Option Json) :
    APILogger :=
  { recentLogs := l.recentLogs ++ [LogEntry.response status body] }

/-- Modelled from the spec: the structured rendering of one log entry, labelled
"Request Details" / "Response Details" with a serialized key/value block
(spec section 4.2 and the repository docs for `getRecentLogs`). -/
def LogEntry.serialize : LogEntry → String
  | .request method url headers body =>
      "===Request Details===\n" ++ Json.stringify (Json.obj
        ([("method", Json.str method), ("url", Json.str url),
          ("headers", Json.obj (headers.map (fun p => (p.1, Json.str p.2))))] ++
         (match body with
          | none => []
          | some b => [("body", b)])))
  | .response status body =>
      "===Response Details===\n" ++ Json.stringify (Json.obj
        ([("status", Json.num status)] ++
         (match body with
          | none => []
          | some b => [("body", b)])))

/-- Concatenates a list of strings (used by the log renderer). -/
def joinAll : List String → String
  | [] => ""
  | s :: rest => s ++ joinAll rest

/-- Modelled from the spec: `getRecentLogs()` renders every stored entry in
insertion order as one formatted string. -/
def APILogger.getRecentLogs (l : APILogger) : String :=
  joinAll (l.recentLogs.map (fun e => e.serialize ++ "\n\n"))

/-! ## Model of the WHATWG `URL` class on a restricted domain

`getUrl` evaluates `new URL(base + path)`, appends each query parameter with
`url.searchParams.append(key, value)` and returns `url.toString()`.  The model
below implements the WHATWG basic URL parser and serializer restricted to
absolute `http`/`https` URLs whose input contains no `?`, `#`, `\` or
authority `@`, whose host is a domain over `[A-Za-z0-9.-]` that is not an IPv4
number, and whose path characters need no percent-encoding.  Outside that
domain the parser answers `none` (the model makes no claim there); inside it,
parsing lowercases the scheme and host, drops a default port, performs
dot-segment removal, and serializes an empty path as `/`, as the standard
prescribes. -/

/-- ASCII lowercasing of one character. -/
def asciiLower (c : Char) : Char :=
  if 'A' ≤ c ∧ c ≤ 'Z' then Char.ofNat (c.toNat + 32) else c

/-- Characters permitted in a modelled host (domains over `[A-Za-z0-9.-]`). -/
def isHostChar (c : Char) : Bool :=
  c.isAlpha || c.isDigit || c = '.' || c = '-'

/-- Path characters the WHATWG serializer keeps verbatim (the model's domain
excludes path characters that would be percent-encoded). -/
def isPathChar (c : Char) : Bool :=
  c.isAlpha || c.isDigit || c = '!' || c = '$' || c = '&' || c = '(' ||
  c = ')' || c = '*' || c = '+' || c = ',' || c = '-' || c = '.' ||
  c = '/' || c = ':' || c = ';' || c = '=' || c = '@' || c = '_' ||
  c = '~' || c = '%'

/-- Splits a character list at every `/`. -/
def splitSlash : List Char → List (List Char)
  | [] => [[]]
  | '/' :: rest => [] :: splitSlash rest
  | c :: rest =>
    match splitSlash rest with
    | [] => [[c]]
    | s :: ss => (c :: s) :: ss

/-- Raw path segments: the leading `/` is consumed and the remainder split at
every `/`; an empty path yields the single empty segment, as in the standard's
path-start/path states. -/
def rawSegs (p : List Char) : List (List Char) :=
  match p with
  | '/' :: rest => splitSlash rest
  | other => splitSlash other

/-- A single-dot path segment (`.` or a percent-encoding of it, ASCII
case-insensitively), per the WHATWG path state. -/
def isSingleDot (s : List Char) : Bool :=
  s == ['.'] || s.map asciiLower == ['%', '2', 'e']

/-- A double-dot path segment (`..` or a percent-encoded spelling of it), per
the WHATWG path state. -/
def isDoubleDot (s : List Char) : Bool :=
  s == ['.', '.'] || s.map asciiLower == ['.', '%', '2', 'e'] ||
  s.map asciiLower == ['%', '2', 'e', '.'] ||
  s.map asciiLower == ['%', '2', 'e', '%', '2', 'e']

/-- WHATWG dot-segment removal: a double dot pops the last segment, a single
dot is skipped, and a trailing (single or double) dot leaves a trailing empty
segment. -/
def processSegs : List (List Char) → List (List Char) → List (List Char)
  | [], acc => acc
  | [s], acc =>
    if isDoubleDot s then acc.dropLast ++ [[]]
    else if isSingleDot s then acc ++ [[]]
    else acc ++ [s]
  | s :: rest, acc =>
    if isDoubleDot s then processSegs rest acc.dropLast
    else if isSingleDot s then processSegs rest acc
    else processSegs rest (acc ++ [s])

/-- Decimal digits to a natural number. -/
def digitsToNat (ds : List Char) : Nat :=
  ds.foldl (fun n c => n * 10 + (c.toNat - 48)) 0

/-- The parsed form of a modelled URL: lowercased scheme and host, optional
non-default port, and the dot-normalized path segments.  The modelled domain
carries no query and no fragment. -/
structure URLRec where
  scheme : String
  host : String
  port : Option Nat
  segs : List String
deriving DecidableEq, Repr

/-- True when the host's final dot-separated label would make the WHATWG host
parser treat the host as an IPv4 address (all digits, or `0x`-prefixed); such
hosts are outside the modelled domain. -/
def lastLabelNumeric (host : List Char) : Bool :=
  let labels := splitSlash (host.map (fun c => if c = '.' then '/' else c))
  match labels.getLast? with
  | none => false
  | some l =>
    (!l.isEmpty && l.all Char.isDigit) ||
    (l.map asciiLower).take 2 == ['0', 'x']

/-- The WHATWG basic URL parser restricted to the modelled domain (absolute
`http(s)` URLs, no query/fragment/backslash/userinfo, domain hosts, path
characters kept verbatim); `none` for inputs outside the domain. -/
def parseHttpURL (s : String) : Option URLRec :=
  let cs := s.data
  if cs.any (fun c => c = '?' || c = '#' || c = '\\') then none else
  let scheme := (cs.takeWhile (fun c => c ≠ ':')).map asciiLower
  if scheme ≠ "http".data ∧ scheme ≠ "https".data then none else
  match cs.dropWhile (fun c => c ≠ ':') with
  | ':' :: '/' :: '/' :: r2 =>
    let auth := r2.takeWhile (fun c => c ≠ '/')
    let pathCs := r2.dropWhile (fun c => c ≠ '/')
    if auth.contains '@' then none else
    let hostCs := auth.takeWhile (fun c => c ≠ ':')
    if hostCs.isEmpty then none else
    if ¬ hostCs.all isHostChar then none else
    if lastLabelNumeric hostCs then none else
    let portDecision : Option (Option Nat) :=
      match auth.dropWhile (fun c => c ≠ ':') with
      | [] => some none
      | ':' :: ds =>
        if ds.isEmpty then some none
        else if ds.all Char.isDigit then
          let n := digitsToNat ds
          if n ≥ 65536 then none
          else if (scheme = "http".data ∧ n = 80) ∨
                  (scheme = "https".data ∧ n = 443) then some none
          else some (some n)
        else none
      | _ => none
    match portDecision with
    | none => none
    | some port =>
      if ¬ pathCs.all isPathChar then none else
      some { scheme := String.mk scheme
             host := String.mk (hostCs.map asciiLower)
             port := port
             segs := (processSegs (rawSegs pathCs) []).map String.mk }
  | _ => none

/-- The WHATWG URL serializer on the modelled domain: scheme, `://`, host,
optional `:port`, then `/`-prefixed segments (an empty segment list cannot
arise; an empty path was parsed as the single empty segment and serializes as
`/`). -/
def serializeURL (u : URLRec) : String :=
  u.scheme ++ "://" ++ u.host ++
  (match u.port with
   | none => ""
   | some p => ":" ++ toString p) ++
  joinAll (u.segs.map (fun s => "/" ++ s))

/-! ## `application/x-www-form-urlencoded` serialization of the query

Mutating `url.searchParams` re-serializes the whole query with the
form-urlencoded serializer: UTF-8 bytes, with `[A-Za-z0-9*\-._]` kept, space
written `+`, and every other byte percent-encoded with uppercase hex. -/

/-- UTF-8 encoding of one character as its list of bytes. -/
def utf8EncodeChar (c : Char) : List Nat :=
  let n := c.toNat
  if n < 128 then [n]
  else if n < 2048 then [192 + n / 64, 128 + n % 64]
  else if n < 65536 then [224 + n / 4096, 128 + (n / 64) % 64, 128 + n % 64]
  else [240 + n / 262144, 128 + (n / 4096) % 64, 128 + (n / 64) % 64, 128 + n % 64]

/-- Uppercase hexadecimal digit for `n < 16`. -/
def hexDigit (n : Nat) : Char :=
  Char.ofNat (if n < 10 then 48 + n else 55 + n)

/-- Bytes the form-urlencoded serializer keeps verbatim:
`[A-Za-z0-9*\-._]`. -/
def isFormSafe (b : Nat) : Bool :=
  (48 ≤ b && b ≤ 57) || (65 ≤ b && b ≤ 90) || (97 ≤ b && b ≤ 122) ||
  b = 42 || b = 45 || b = 46 || b = 95

/-- Form-urlencoded rendering of one byte. -/
def encodeFormByte (b : Nat) : List Char :=
  if isFormSafe b then [Char.ofNat b]
  else if b = 32 then ['+']
  else ['%', hexDigit (b / 16), hexDigit (b % 16)]

/-- Form-urlencoded (URL-encoded) rendering of a string. -/
def encodeForm (s : String) : String :=
  String.mk ((s.data.flatMap utf8EncodeChar).flatMap encodeFormByte)

/-- One `key=value` query component, URL-encoded, with the value coerced to
its string representation. -/
def encodeParam (p : String × ParamValue) : String :=
  encodeForm p.1 ++ "=" ++ encodeForm p.2.toStr

/-- Joins query components with `&`. -/
def joinAmp : List String → String
  | [] => ""
  | [s] => s
  | s :: rest => s ++ "&" ++ joinAmp rest

/-- The serialized query of the appended parameters. -/
def formEncode (ps : List (String × ParamValue)) : String :=
  joinAmp (ps.map encodeParam)

/-- The query part of the final URL string: empty when no parameter was
appended (the parsed URL of the modelled domain has no query of its own),
otherwise `?` followed by the form-urlencoded parameters. -/
def querySuffix (ps : List (String × ParamValue)) : String :=
  if ps.isEmpty then "" else "?" ++ formEncode ps

/-- `this.baseUrl || this.defaultBaseUrl`: the only falsy string is the empty
string, so an empty override leaves the default in force. -/
def effectiveBase (baseUrl defaultBaseUrl : String) : String :=
  if baseUrl = "" then defaultBaseUrl else baseUrl

/-- The computation shared verbatim by both variants' private `getUrl`:
`new URL(`${baseUrl || defaultBaseUrl}${apiPath}`)`, then one
`searchParams.append` per query-parameter entry, then `toString()`.  `none`
models a thrown `TypeError` or an input outside the modelled URL domain. -/
def computeUrl (baseUrl defaultBaseUrl apiPath : String)
    (queryParams : List (String × ParamValue)) : Option String :=
  (parseHttpURL (effectiveBase baseUrl defaultBaseUrl ++ apiPath)).map
    (fun u => serializeURL u ++ querySuffix queryParams)

/-! ## The logger-equipped `RequestHandler` (first variant in the source) -/

/-- The request descriptor handed to the injected Playwright
`APIRequestContext`: the verb method invoked, the URL string, the `headers`
option, and the optional `data` (JSON body) option. -/
structure IssuedRequest where
  method : String
  url : String
  headers : List (String × String)
  data : Option Json

/-- The response object the request context returns: a numeric status accessor
and a fallible asynchronous JSON accessor (`Except.error` models a JSON parse
failure thrown by `response.json()`). -/
structure HttpResponse where
  status : Nat
  json : Except String Json

/-- The injected HTTP-capable request context, modelled as a function from the
issued request descriptor to the response (its four verb methods are the
restrictions of this function to each method tag). -/
def HttpCtx : Type :=
  IssuedRequest → HttpResponse

/-- The logger-equipped `RequestHandler`'s instance fields; the injected
`APIRequestContext` is passed to each verb explicitly.  The constructor sets
`request`, `defaultBaseUrl` and `logger`; every other field starts at its
initializer. -/
structure RequestHandler where
  logger : APILogger
  baseUrl : String := ""
  defaultBaseUrl : String := ""
  apiPath : String := ""
  queryParams : List (String × ParamValue) := []
  apiHeaders : List (String × String) := []
  apiBody : Json := Json.obj []

/-- The complete observable outcome of one terminal verb call: the handler's
post-state, the request descriptor passed to the context (`none` when URL
construction threw first), and the returned value or the thrown error's
message. -/
structure VerbOutcome (α : Type) where
  handler : RequestHandler
  issued : Option IssuedRequest
  result : Except String α

/-- `constructor(request, apiBaseUrl, logger)`. -/
def mkRequestHandler (apiBaseUrl : String) (logger : APILogger) : RequestHandler :=
  { logger := logger, defaultBaseUrl := apiBaseUrl }

/-- `url(url)` — overwrites `baseUrl`, returns `this`. -/
def RequestHandler.url (h : RequestHandler) (url : String) : RequestHandler :=
  { h with baseUrl := url }

/-- `path(path)` — overwrites `apiPath`, returns `this`. -/
def RequestHandler.path (h : RequestHandler) (path : String) : RequestHandler :=
  { h with apiPath := path }

/-- `params(params)` — overwrites `queryParams`, returns `this`. -/
def RequestHandler.params (h : RequestHandler)
    (params : List (String × ParamValue)) : RequestHandler :=
  { h with queryParams := params }

/-- `header(headers)` — overwrites `apiHeaders`, returns `this`. -/
def RequestHandler.header (h : RequestHandler)
    (headers : List (String × String)) : RequestHandler :=
  { h with apiHeaders := headers }

/-- `body(body)` — overwrites `apiBody`, returns `this`. -/
def RequestHandler.body (h : RequestHandler) (body : Json) : RequestHandler :=
  { h with apiBody := body }

/-- Private `getUrl()` of the logger-equipped variant. -/
def RequestHandler.getUrl (h : RequestHandler) : Option String :=
  computeUrl h.baseUrl h.defaultBaseUrl h.apiPath h.queryParams

/-- Private `statusCodeValidator(actualStatus, expectedStatus, callingMethod)`:
`some message` is the thrown error (the `callingMethod` argument only adjusts
the stack trace, which the model does not represent), `none` means no throw. -/
def RequestHandler.statusCodeValidator (h : RequestHandler)
    (actualStatus expectedStatus : Nat) : Option String :=
  if actualStatus ≠ expectedStatus then
    some ("Expected status " ++ toString expectedStatus ++ " but got " ++
      toString actualStatus ++ "\n\nRecent API Activity: \n" ++
      h.logger.getRecentLogs)
  else none

/-- `getRequest(stautsCode)` (the parameter name reproduces the source's
spelling): build the URL, log the request (no body argument), issue
`request.get(url, { headers })`, read the status, parse the JSON, log the
response, validate the status, return the parsed JSON. -/
def RequestHandler.getRequest (h : RequestHandler) (stautsCode : Nat)
    (ctx : HttpCtx) : VerbOutcome Json :=
  match h.getUrl with
  | none => ⟨h, none, Except.error "Invalid URL"⟩
  | some url =>
    let logger1 := h.logger.logRequest "GET" url h.apiHeaders none
    let issued : IssuedRequest := ⟨"GET", url, h.apiHeaders, none⟩
    let response := ctx issued
    let actualStatus := response.status
    match response.json with
    | Except.error e => ⟨{ h with logger := logger1 }, some issued, Except.error e⟩
    | Except.ok responseJson =>
      let h2 : RequestHandler :=
        { h with logger := logger1.logResponse actualStatus (some responseJson) }
      match h2.statusCodeValidator actualStatus stautsCode with
      | some err => ⟨h2, some issued, Except.error err⟩
      | none => ⟨h2, some issued, Except.ok responseJson⟩

/-- `postRequest(stautsCode)`: as `getRequest` but the request log entry and
the `data` option carry the configured body. -/
def RequestHandler.postRequest (h : RequestHandler) (stautsCode : Nat)
    (ctx : HttpCtx) : VerbOutcome Json :=
  match h.getUrl with
  | none => ⟨h, none, Except.error "Invalid URL"⟩
  | some url =>
    let logger1 := h.logger.logRequest "POST" url h.apiHeaders (some h.apiBody)
    let issued : IssuedRequest := ⟨"POST", url, h.apiHeaders, some h.apiBody⟩
    let response := ctx issued
    let actualStatus := response.status
    match response.json with
    | Except.error e => ⟨{ h with logger := logger1 }, some issued, Except.error e⟩
    | Except.ok responseJson =>
      let h2 : RequestHandler :=
        { h with logger := logger1.logResponse actualStatus (some responseJson) }
      match h2.statusCodeValidator actualStatus stautsCode with
      | some err => ⟨h2, some issued, Except.error err⟩
      | none => ⟨h2, some issued, Except.ok responseJson⟩

/-- `putRequest(stautsCode)`: as `postRequest` with method PUT. -/
def RequestHandler.putRequest (h : RequestHandler) (stautsCode : Nat)
    (ctx : HttpCtx) : VerbOutcome Json :=
  match h.getUrl with
  | none => ⟨h, none, Except.error "Invalid URL"⟩
  | some url =>
    let logger1 := h.logger.logRequest "PUT" url h.apiHeaders (some h.apiBody)
    let issued : IssuedRequest := ⟨"PUT", url, h.apiHeaders, some h.apiBody⟩
    let response := ctx issued
    let actualStatus := response.status
    match response.json with
    | Except.error e => ⟨{ h with logger := logger1 }, some issued, Except.error e⟩
    | Except.ok responseJson =>
      let h2 : RequestHandler :=
        { h with logger := logger1.logResponse actualStatus (some responseJson) }
      match h2.statusCodeValidator actualStatus stautsCode with
      | some err => ⟨h2, some issued, Except.error err⟩
      | none => ⟨h2, some issued, Except.ok responseJson⟩

/-- `deleteRequest(stautsCode)`: the request log entry carries the configured
body, but `request.delete(url, { headers })` is issued without a `data`
option; the response body is never read (`response.json()` is not called,
`logResponse` receives only the status) and nothing is returned. -/
def RequestHandler.deleteRequest (h : RequestHandler) (stautsCode : Nat)
    (ctx : HttpCtx) : VerbOutcome Unit :=
  match h.getUrl with
  | none => ⟨h, none, Except.error "Invalid URL"⟩
  | some url =>
    let logger1 := h.logger.logRequest "DELETE" url h.apiHeaders (some h.apiBody)
    let issued : IssuedRequest := ⟨"DELETE", url, h.apiHeaders, none⟩
    let response := ctx issued
    let actualStatus := response.status
    let h2 : RequestHandler :=
      { h with logger := logger1.logResponse actualStatus none }
    match h2.statusCodeValidator actualStatus stautsCode with
    | some err => ⟨h2, some issued, Except.error err⟩
    | none => ⟨h2, some issued, Except.ok ()⟩

/-! ## The plain `RequestHandler` variant (second variant in the source)

No logger; each verb validates the status with the test framework's bare
`expect(response.status()).toEqual(stautsCode)` assertion (modelled as a
thrown framework-formatted message), and `getUrl` additionally writes the URL
to the console (an effect with no bearing on the computed value). -/

/-- The plain variant's instance fields. -/
structure PlainRequestHandler where
  baseUrl : String := ""
  defaultBaseUrl : String := ""
  apiPath : String := ""
  queryParams : List (String × ParamValue) := []
  apiHeaders : List (String × String) := []
  apiBody : Json := Json.obj []

/-- The outcome of one plain-variant terminal verb call. -/
structure PlainOutcome (α : Type) where
  handler : PlainRequestHandler
  issued : Option IssuedRequest
  result : Except String α

/-- Plain `constructor(request, apiBaseUrl)`. -/
def mkPlainRequestHandler (apiBaseUrl : String) : PlainRequestHandler :=
  { defaultBaseUrl := apiBaseUrl }

/-- Plain `url(url)`. -/
def PlainRequestHandler.url (h : PlainRequestHandler) (url : String) :
    PlainRequestHandler :=
  { h with baseUrl := url }

/-- Plain `path(path)`. -/
def PlainRequestHandler.path (h : PlainRequestHandler) (path : String) :
    PlainRequestHandler :=
  { h with apiPath := path }

/-- Plain `params(params)`. -/
def PlainRequestHandler.params (h : PlainRequestHandler)
    (params : List (String × ParamValue)) : PlainRequestHandler :=
  { h with queryParams := params }

/-- Plain `header(headers)`. -/
def PlainRequestHandler.header (h : PlainRequestHandler)
    (headers : List (String × String)) : PlainRequestHandler :=
  { h with apiHeaders := headers }

/-- Plain `body(body)`. -/
def PlainRequestHandler.body (h : PlainRequestHandler) (body : Json) :
    PlainRequestHandler :=
  { h with apiBody := body }

/-- Plain private `getUrl()`: the same computation as the logger variant's
(the `console.log` call does not affect the value). -/
def PlainRequestHandler.getUrl (h : PlainRequestHandler) : Option String :=
  computeUrl h.baseUrl h.defaultBaseUrl h.apiPath h.queryParams

/-- The message of a failed `expect(actual).toEqual(expected)` assertion; its
exact text is framework-defined, the model only fixes that a mismatch
throws. -/
def expectToEqualMessage (actual expected : Nat) : String :=
  "expect(received).toEqual(expected): expected " ++ toString expected ++
    ", received " ++ toString actual

/-- Plain `getRequest(stautsCode)`: build the URL, issue the GET, assert the
status (throwing on mismatch, before the body is parsed), then parse and
return the JSON body. -/
def PlainRequestHandler.getRequest (h : PlainRequestHandler) (stautsCode : Nat)
    (ctx : HttpCtx) : PlainOutcome Json :=
  match h.getUrl with
  | none => ⟨h, none, Except.error "Invalid URL"⟩
  | some url =>
    let issued : IssuedRequest := ⟨"GET", url, h.apiHeaders, none⟩
    let response := ctx issued
    if response.status ≠ stautsCode then
      ⟨h, some issued, Except.error (expectToEqualMessage response.status stautsCode)⟩
    else
      match response.json with
      | Except.error e => ⟨h, some issued, Except.error e⟩
      | Except.ok responseJson => ⟨h, some issued, Except.ok responseJson⟩

/-- Plain `postRequest(stautsCode)`. -/
def PlainRequestHandler.postRequest (h : PlainRequestHandler) (stautsCode : Nat)
    (ctx : HttpCtx) : PlainOutcome Json :=
  match h.getUrl with
  | none => ⟨h, none, Except.error "Invalid URL"⟩
  | some url =>
    let issued : IssuedRequest := ⟨"POST", url, h.apiHeaders, some h.apiBody⟩
    let response := ctx issued
    if response.status ≠ stautsCode then
      ⟨h, some issued, Except.error (expectToEqualMessage response.status stautsCode)⟩
    else
      match response.json with
      | Except.error e => ⟨h, some issued, Except.error e⟩
      | Except.ok responseJson => ⟨h, some issued, Except.ok responseJson⟩

/-- Plain `putRequest(stautsCode)`. -/
def PlainRequestHandler.putRequest (h : PlainRequestHandler) (stautsCode : Nat)
    (ctx : HttpCtx) : PlainOutcome Json :=
  match h.getUrl with
  | none => ⟨h, none, Except.error "Invalid URL"⟩
  | some url =>
    let issued : IssuedRequest := ⟨"PUT", url, h.apiHeaders, some h.apiBody⟩
    let response := ctx issued
    if response.status ≠ stautsCode then
      ⟨h, some issued, Except.error (expectToEqualMessage response.status stautsCode)⟩
    else
      match response.json with
      | Except.error e => ⟨h, some issued, Except.error e⟩
      | Except.ok responseJson => ⟨h, some issued, Except.ok responseJson⟩

/-- Plain `deleteRequest(stautsCode)`: no `data` option, no body read, nothing
returned. -/
def PlainRequestHandler.deleteRequest (h : PlainRequestHandler)
    (stautsCode : Nat) (ctx : HttpCtx) : PlainOutcome Unit :=
  match h.getUrl with
  | none => ⟨h, none, Except.error "Invalid URL"⟩
  | some url =>
    let issued : IssuedRequest := ⟨"DELETE", url, h.apiHeaders, none⟩
    let response := ctx issued
    if response.status ≠ stautsCode then
      ⟨h, some issued, Except.error (expectToEqualMessage response.status stautsCode)⟩
    else
      ⟨h, some issued, Except.ok ()⟩

/-! ## Helper lemmas -/

/-- `sub` occurs inside `msg` (as a contiguous character run). -/
def strIncludes (msg sub : String) : Prop :=
  sub.data <:+: msg.data

/-- The configuration fields of the logger-equipped handler (everything except
the logger itself). -/
def RequestHandler.config (h : RequestHandler) :
    String × String × String × List (String × ParamValue) ×
      List (String × String) × Json :=
  (h.baseUrl, h.defaultBaseUrl, h.apiPath, h.queryParams, h.apiHeaders, h.apiBody)

/-- The plain-variant handler holding the same configuration as a
logger-equipped one. -/
def RequestHandler.toPlain (h : RequestHandler) : PlainRequestHandler :=
  { baseUrl := h.baseUrl, defaultBaseUrl := h.defaultBaseUrl,
    apiPath := h.apiPath, queryParams := h.queryParams,
    apiHeaders := h.apiHeaders, apiBody := h.apiBody }

/-- The enriched error message the validator throws on a mismatch. -/
def mismatchMsg (E A : Nat) (l : APILogger) : String :=
  "Expected status " ++ toString E ++ " but got " ++ toString A ++
    "\n\nRecent API Activity: \n" ++ l.getRecentLogs

/-- An infix stays an infix after prepending on the left. -/
theorem infix_prepend {α : Type} {l₁ l₂ : List α} (s : List α)
    (h : l₁ <:+: l₂) : l₁ <:+: s ++ l₂ := by
  obtain ⟨a, b, rfl⟩ := h
  exact ⟨s ++ a, b, by simp⟩

/-- An infix stays an infix after appending on the right. -/
theorem infix_extend {α : Type} {l₁ l₂ : List α} (t : List α)
    (h : l₁ <:+: l₂) : l₁ <:+: l₂ ++ t := by
  obtain ⟨a, b, rfl⟩ := h
  exact ⟨a, b ++ t, by simp⟩

/-- Every stored entry's serialization occurs inside the rendered log. -/
theorem serialize_infix_logs {e : LogEntry} :
    ∀ {entries : List LogEntry}, e ∈ entries →
      strIncludes (APILogger.getRecentLogs ⟨entries⟩) e.serialize := by
  intro entries he
  induction entries with
  | nil => cases he
  | cons a rest ih =>
    rcases List.mem_cons.mp he with rfl | hmem
    · exact ⟨[], ("\n\n".data ++ (joinAll (rest.map (fun x => x.serialize ++ "\n\n"))).data),
        by simp [APILogger.getRecentLogs, joinAll]⟩
    · have := ih hmem
      exact infix_prepend ((a.serialize ++ "\n\n").data)
        (by simpa [APILogger.getRecentLogs, joinAll] using this)

/-- On a status mismatch the validator produces exactly the enriched message
of the source. -/
theorem statusCodeValidator_mismatch (h : RequestHandler) {A E : Nat}
    (hne : A ≠ E) :
    h.statusCodeValidator A E =
      some ("Expected status " ++ toString E ++ " but got " ++ toString A ++
        "\n\nRecent API Activity: \n" ++ h.logger.getRecentLogs) := by
  simp [RequestHandler.statusCodeValidator, hne]

/-- On a status match the validator is silent. -/
theorem statusCodeValidator_match (h : RequestHandler) (E : Nat) :
    h.statusCodeValidator E E = none := by
  simp [RequestHandler.statusCodeValidator]

/-- The enriched mismatch message contains the expected status, the actual
status, and the rendered log. -/
theorem mismatch_message_parts (E A logs : String) :
    strIncludes ("Expected status " ++ E ++ " but got " ++ A ++
      "\n\nRecent API Activity: \n" ++ logs) E ∧
    strIncludes ("Expected status " ++ E ++ " but got " ++ A ++
      "\n\nRecent API Activity: \n" ++ logs) A ∧
    strIncludes ("Expected status " ++ E ++ " but got " ++ A ++
      "\n\nRecent API Activity: \n" ++ logs) logs := by
  refine ⟨⟨"Expected status ".data,
      (" but got " ++ A ++ "\n\nRecent API Activity: \n" ++ logs).data, ?_⟩,
    ⟨("Expected status " ++ E ++ " but got ").data,
      ("\n\nRecent API Activity: \n" ++ logs).data, ?_⟩,
    ⟨("Expected status " ++ E ++ " but got " ++ A ++
      "\n\nRecent API Activity: \n").data, [], ?_⟩⟩ <;>
    simp [String.data_append]

/-! ## Claims -/

/-- C5: each chain setter (`url`, `path`, `params`, `header`, `body`)
replaces its configuration field wholesale (the new value is stored exactly,
regardless of the old one, and no other field moves), so calling the same
setter twice leaves only the second value in effect. -/
theorem setters_overwrite_wholesale (h : RequestHandler) (u1 u2 p1 p2 : String)
    (q1 q2 : List (String × ParamValue)) (d1 d2 : List (String × String))
    (b1 b2 : Json) :
    ((h.url u1).url u2 = h.url u2 ∧ (h.url u1).baseUrl = u1 ∧
      h.url u1 = { h with baseUrl := u1 }) ∧
    ((h.path p1).path p2 = h.path p2 ∧ (h.path p1).apiPath = p1 ∧
      h.path p1 = { h with apiPath := p1 }) ∧
    ((h.params q1).params q2 = h.params q2 ∧ (h.params q1).queryParams = q1 ∧
      h.params q1 = { h with queryParams := q1 }) ∧
    ((h.header d1).header d2 = h.header d2 ∧
      ((h.header d1).header d2).apiHeaders = d2 ∧
      h.header d1 = { h with apiHeaders := d1 }) ∧
    ((h.body b1).body b2 = h.body b2 ∧ (h.body b1).apiBody = b1 ∧
      h.body b1 = { h with apiBody := b1 }) := by
  exact ⟨⟨rfl, rfl, rfl⟩, ⟨rfl, rfl, rfl⟩, ⟨rfl, rfl, rfl⟩, ⟨rfl, rfl, rfl⟩,
    ⟨rfl, rfl, rfl⟩⟩

/-- C6: no terminal verb call modifies any configuration field of the builder
(base-URL override, default base URL, path, query parameters, headers, body);
after execution every field holds exactly the value it held before. -/
theorem terminal_verbs_preserve_config (h : RequestHandler) (code : Nat)
    (ctx : HttpCtx) :
    (h.getRequest code ctx).handler.config = h.config ∧
    (h.postRequest code ctx).handler.config = h.config ∧
    (h.putRequest code ctx).handler.config = h.config ∧
    (h.deleteRequest code ctx).handler.config = h.config := by
  refine ⟨?_, ?_, ?_, ?_⟩ <;>
    simp only [RequestHandler.getRequest, RequestHandler.postRequest,
      RequestHandler.putRequest, RequestHandler.deleteRequest] <;>
    (repeat' split) <;> rfl

/-- C10: calling `url("")` with the empty string does not override the base
URL — the stored override is the empty string, which `baseUrl ||
defaultBaseUrl` ignores, so the final URL is computed from the default base
exactly as on a freshly constructed handler (whose override field is also
empty). -/
theorem url_empty_string_no_override (h : RequestHandler) (d : String)
    (l : APILogger) :
    (h.url "").getUrl = computeUrl "" h.defaultBaseUrl h.apiPath h.queryParams ∧
    (h.url "").getUrl =
      ({ h with baseUrl := "" } : RequestHandler).getUrl ∧
    (mkRequestHandler d l).baseUrl = "" ∧
    effectiveBase "" h.defaultBaseUrl = h.defaultBaseUrl := by
  refine ⟨rfl, rfl, rfl, ?_⟩
  simp [effectiveBase]

/-- C2 counterexample: a DELETE whose response carries a JSON body and whose
status matches the expected status still yields no parsed value — the outcome
is the bare `ok ()`, not the body the responder returned (the source's
`deleteRequest` never calls `response.json()` and returns nothing). -/
theorem deleteRequest_body_not_returned_cex :
    ((((mkRequestHandler "https://x.test" ⟨[]⟩).path "/a").deleteRequest 200
        (fun _ => ⟨200, Except.ok (Json.obj [("foo", Json.str "bar")])⟩)).result =
      Except.ok ()) ∧
    ((fun (_ : IssuedRequest) =>
        (⟨200, Except.ok (Json.obj [("foo", Json.str "bar")])⟩ : HttpResponse))
      ⟨"DELETE", "https://x.test/a", [], none⟩).json =
        Except.ok (Json.obj [("foo", Json.str "bar")]) := by
  exact ⟨rfl, rfl⟩

/-- C2 (amended): `deleteRequest` never parses or returns the response body;
whenever the actual status equals the expected status — an empty-body 204 as
well as a response carrying a JSON body — the call resolves without error and
yields no value. -/
theorem deleteRequest_yields_no_value (h : RequestHandler) (E : Nat)
    (ctx : HttpCtx) (u : String) (hu : h.getUrl = some u)
    (hs : (ctx ⟨"DELETE", u, h.apiHeaders, none⟩).status = E) :
    (h.deleteRequest E ctx).result = Except.ok () := by
  simp [RequestHandler.deleteRequest, hu, hs, RequestHandler.statusCodeValidator]

/-- C2 witness: a DELETE against an empty-body 204 responder with expected
status 204 resolves with no thrown error and no parsed value. -/
theorem deleteRequest_yields_no_value_witness :
    ((((mkRequestHandler "https://x.test" ⟨[]⟩).path "/a").deleteRequest 204
        (fun _ => ⟨204, Except.error "JSON.parse: unexpected end of data"⟩)).result =
      Except.ok ()) :=
  deleteRequest_yields_no_value
    ((mkRequestHandler "https://x.test" ⟨[]⟩).path "/a") 204
    (fun _ => ⟨204, Except.error "JSON.parse: unexpected end of data"⟩)
    "https://x.test/a" (by rfl) (by rfl)

/-- C3 counterexample: with default base `https://x.test` and no path, the
executed URL is `https://x.test/` — the WHATWG `URL` class serializes the
empty path as `/` — which is not the character-for-character concatenation
`https://x.test` of base and path. -/
theorem url_not_exact_concat_cex :
    (mkRequestHandler "https://x.test" ⟨[]⟩).getUrl = some "https://x.test/" ∧
    effectiveBase (mkRequestHandler "https://x.test" ⟨[]⟩).baseUrl
        (mkRequestHandler "https://x.test" ⟨[]⟩).defaultBaseUrl ++
      (mkRequestHandler "https://x.test" ⟨[]⟩).apiPath = "https://x.test" ∧
    ("https://x.test/" : String) ≠ "https://x.test" := by
  refine ⟨rfl, rfl, ?_⟩
  decide

/-- C3 (amended): no separator is ever inserted between the effective base
(the override if set, else the default) and the last `path()` value: the
executed URL is the WHATWG parse-then-serialize of their exact concatenation,
followed by the query.  Whenever that concatenation is already in serialized
normal form, the executed URL minus the query string is exactly the
concatenation; in general the URL parser normalizes it (empty path becomes
`/`, dot-segments collapse, scheme/host lowercase, default port dropped). -/
theorem url_exact_concat_when_normalized (h : RequestHandler) (u : URLRec)
    (hp : parseHttpURL (effectiveBase h.baseUrl h.defaultBaseUrl ++ h.apiPath) =
      some u) :
    h.getUrl = some (serializeURL u ++ querySuffix h.queryParams) ∧
    (serializeURL u = effectiveBase h.baseUrl h.defaultBaseUrl ++ h.apiPath →
      h.getUrl = some ((effectiveBase h.baseUrl h.defaultBaseUrl ++ h.apiPath) ++
        querySuffix h.queryParams)) := by
  constructor
  · simp [RequestHandler.getUrl, computeUrl, hp]
  · intro hn
    simp [RequestHandler.getUrl, computeUrl, hp, hn]

/-- C3 witness: base `https://x.test/api`, path `/articles` and one query
parameter produce exactly the concatenation plus the encoded query. -/
theorem url_exact_concat_when_normalized_witness :
    (((mkRequestHandler "https://x.test/api" ⟨[]⟩).path "/articles").params
        [("limit", ParamValue.num 10)]).getUrl =
      some (("https://x.test/api" ++ "/articles") ++
        querySuffix [("limit", ParamValue.num 10)]) :=
  (url_exact_concat_when_normalized
    (((mkRequestHandler "https://x.test/api" ⟨[]⟩).path "/articles").params
      [("limit", ParamValue.num 10)])
    ⟨"https", "x.test", none, ["api", "articles"]⟩ (by rfl)).2 (by rfl)

/-- C9: `deleteRequest` logs the configured body in its Request entry, yet the
HTTP DELETE it issues carries only the configured headers and no body. -/
theorem delete_logs_body_sends_none (h : RequestHandler) (E : Nat)
    (ctx : HttpCtx) (u : String) (hu : h.getUrl = some u) :
    (h.deleteRequest E ctx).issued = some ⟨"DELETE", u, h.apiHeaders, none⟩ ∧
    (h.deleteRequest E ctx).handler.logger.recentLogs =
      h.logger.recentLogs ++
        [LogEntry.request "DELETE" u h.apiHeaders (some h.apiBody),
         LogEntry.response (ctx ⟨"DELETE", u, h.apiHeaders, none⟩).status none] := by
  constructor <;>
    simp only [RequestHandler.deleteRequest, hu] <;> (repeat' split) <;>
    simp [APILogger.logRequest, APILogger.logResponse]

/-- C9 witness: a concrete DELETE with a configured body logs that body but
issues the request without it. -/
theorem delete_logs_body_sends_none_witness :
    ((((mkRequestHandler "https://x.test" ⟨[]⟩).path "/a").body
        (Json.obj [("k", Json.str "v")])).deleteRequest 204
        (fun _ => ⟨204, Except.error "empty"⟩)).issued =
      some ⟨"DELETE", "https://x.test/a", [], none⟩ ∧
    ((((mkRequestHandler "https://x.test" ⟨[]⟩).path "/a").body
        (Json.obj [("k", Json.str "v")])).deleteRequest 204
        (fun _ => ⟨204, Except.error "empty"⟩)).handler.logger.recentLogs =
      [] ++
        [LogEntry.request "DELETE" "https://x.test/a" []
          (some (Json.obj [("k", Json.str "v")])),
         LogEntry.response 204 none] :=
  delete_logs_body_sends_none
    (((mkRequestHandler "https://x.test" ⟨[]⟩).path "/a").body
      (Json.obj [("k", Json.str "v")])) 204
    (fun _ => ⟨204, Except.error "empty"⟩) "https://x.test/a" (by rfl)

/-- C4: with the effective-base-plus-path parseable, every entry of the
`params()` mapping in effect contributes exactly one URL-encoded `key=value`
component to the final URL's query string (in order, `&`-separated, values
coerced to their string representation); distinct encoded components occur
exactly once. -/
theorem params_encoded_exactly_once (h : RequestHandler) (u : URLRec)
    (hp : parseHttpURL (effectiveBase h.baseUrl h.defaultBaseUrl ++ h.apiPath) =
      some u)
    (hne : h.queryParams ≠ []) :
    h.getUrl =
      some (serializeURL u ++ "?" ++ joinAmp (h.queryParams.map encodeParam)) ∧
    (∀ p ∈ h.queryParams,
      encodeParam p = encodeForm p.1 ++ "=" ++ encodeForm p.2.toStr) ∧
    ((h.queryParams.map encodeParam).Nodup →
      ∀ p ∈ h.queryParams,
        (h.queryParams.map encodeParam).count (encodeParam p) = 1) := by
  refine ⟨?_, fun p _ => rfl, fun hnd p hmem => ?_⟩
  · have hq : h.queryParams.isEmpty = false := by
      cases hq : h.queryParams
      · exact absurd hq hne
      · rfl
    simp [RequestHandler.getUrl, computeUrl, hp, querySuffix, hq, formEncode,
      String.append_assoc]
  · exact List.count_eq_one_of_mem hnd (List.mem_map_of_mem _ hmem)

/-- C4 witness: two integer-valued parameters appear exactly once each, in
order, in the constructed query string. -/
theorem params_encoded_exactly_once_witness :
    ((((mkRequestHandler "https://x.test/api" ⟨[]⟩).path "/articles").params
        [("limit", ParamValue.num 10), ("offset", ParamValue.num 0)]).getUrl =
      some (serializeURL ⟨"https", "x.test", none, ["api", "articles"]⟩ ++ "?" ++
        joinAmp ([("limit", ParamValue.num 10),
          ("offset", ParamValue.num 0)].map encodeParam))) ∧
    (([("limit", ParamValue.num 10), ("offset", ParamValue.num 0)].map
        encodeParam).count (encodeParam ("limit", ParamValue.num 10)) = 1) := by
  have h := params_encoded_exactly_once
    (((mkRequestHandler "https://x.test/api" ⟨[]⟩).path "/articles").params
      [("limit", ParamValue.num 10), ("offset", ParamValue.num 0)])
    ⟨"https", "x.test", none, ["api", "articles"]⟩ (by rfl) (by decide)
  exact ⟨h.1, h.2.2 (by decide) ("limit", ParamValue.num 10) (by decide)⟩

/-- C7: every terminal verb call appends to the shared logger exactly one
Request entry (method, URL, headers, and body — the body omitted for GET)
and exactly one Response entry, in that order, and the appends persist even
when status validation then fails (the equations below hold for every
expected status, matching or not). -/
theorem terminal_verbs_log_two_entries (h : RequestHandler) (E : Nat)
    (ctx : HttpCtx) (u : String) (hu : h.getUrl = some u) :
    (∀ b, (ctx ⟨"GET", u, h.apiHeaders, none⟩).json = Except.ok b →
      (h.getRequest E ctx).handler.logger.recentLogs =
        h.logger.recentLogs ++
          [LogEntry.request "GET" u h.apiHeaders none,
           LogEntry.response (ctx ⟨"GET", u, h.apiHeaders, none⟩).status
             (some b)]) ∧
    (∀ b, (ctx ⟨"POST", u, h.apiHeaders, some h.apiBody⟩).json = Except.ok b →
      (h.postRequest E ctx).handler.logger.recentLogs =
        h.logger.recentLogs ++
          [LogEntry.request "POST" u h.apiHeaders (some h.apiBody),
           LogEntry.response (ctx ⟨"POST", u, h.apiHeaders, some h.apiBody⟩).status
             (some b)]) ∧
    (∀ b, (ctx ⟨"PUT", u, h.apiHeaders, some h.apiBody⟩).json = Except.ok b →
      (h.putRequest E ctx).handler.logger.recentLogs =
        h.logger.recentLogs ++
          [LogEntry.request "PUT" u h.apiHeaders (some h.apiBody),
           LogEntry.response (ctx ⟨"PUT", u, h.apiHeaders, some h.apiBody⟩).status
             (some b)]) ∧
    ((h.deleteRequest E ctx).handler.logger.recentLogs =
      h.logger.recentLogs ++
        [LogEntry.request "DELETE" u h.apiHeaders (some h.apiBody),
         LogEntry.response (ctx ⟨"DELETE", u, h.apiHeaders, none⟩).status none]) := by
  refine ⟨fun b hb => ?_, fun b hb => ?_, fun b hb => ?_, ?_⟩
  · simp only [RequestHandler.getRequest, hu, hb]
    (repeat' split) <;> simp [APILogger.logRequest, APILogger.logResponse]
  · simp only [RequestHandler.postRequest, hu, hb]
    (repeat' split) <;> simp [APILogger.logRequest, APILogger.logResponse]
  · simp only [RequestHandler.putRequest, hu, hb]
    (repeat' split) <;> simp [APILogger.logRequest, APILogger.logResponse]
  · simp only [RequestHandler.deleteRequest, hu]
    (repeat' split) <;> simp [APILogger.logRequest, APILogger.logResponse]

/-- C7 witness: a GET whose response status (500) fails validation against the
expected 200 still leaves exactly the Request entry (without body) and the
Response entry appended to the logger. -/
theorem terminal_verbs_log_two_entries_witness :
    ((((mkRequestHandler "https://x.test" ⟨[]⟩).path "/a").header
        [("A", "1")]).getRequest 200
        (fun _ => ⟨500, Except.ok Json.null⟩)).handler.logger.recentLogs =
      [LogEntry.request "GET" "https://x.test/a" [("A", "1")] none,
       LogEntry.response 500 (some Json.null)] :=
  (terminal_verbs_log_two_entries
    (((mkRequestHandler "https://x.test" ⟨[]⟩).path "/a").header [("A", "1")])
    200 (fun _ => ⟨500, Except.ok Json.null⟩) "https://x.test/a" (by rfl)).1
    Json.null (by rfl)

/-- C8: on equal configurations the logger-equipped and the plain builder
variants compute the same URL, hand the context the same request descriptor
(same method, URL, headers, data) for every verb, and, when the response
status matches the expected status and the body parses, return the same
parsed body (and, for DELETE, both yield no value). -/
theorem variants_issue_same_request (h : RequestHandler) (E : Nat)
    (ctx : HttpCtx) :
    h.toPlain.getUrl = h.getUrl ∧
    (h.toPlain.getRequest E ctx).issued = (h.getRequest E ctx).issued ∧
    (h.toPlain.postRequest E ctx).issued = (h.postRequest E ctx).issued ∧
    (h.toPlain.putRequest E ctx).issued = (h.putRequest E ctx).issued ∧
    (h.toPlain.deleteRequest E ctx).issued = (h.deleteRequest E ctx).issued ∧
    (∀ u b, h.getUrl = some u →
      (ctx ⟨"GET", u, h.apiHeaders, none⟩).status = E →
      (ctx ⟨"GET", u, h.apiHeaders, none⟩).json = Except.ok b →
      (h.getRequest E ctx).result = Except.ok b ∧
      (h.toPlain.getRequest E ctx).result = Except.ok b) ∧
    (∀ u b, h.getUrl = some u →
      (ctx ⟨"POST", u, h.apiHeaders, some h.apiBody⟩).status = E →
      (ctx ⟨"POST", u, h.apiHeaders, some h.apiBody⟩).json = Except.ok b →
      (h.postRequest E ctx).result = Except.ok b ∧
      (h.toPlain.postRequest E ctx).result = Except.ok b) ∧
    (∀ u b, h.getUrl = some u →
      (ctx ⟨"PUT", u, h.apiHeaders, some h.apiBody⟩).status = E →
      (ctx ⟨"PUT", u, h.apiHeaders, some h.apiBody⟩).json = Except.ok b →
      (h.putRequest E ctx).result = Except.ok b ∧
      (h.toPlain.putRequest E ctx).result = Except.ok b) ∧
    (∀ u, h.getUrl = some u →
      (ctx ⟨"DELETE", u, h.apiHeaders, none⟩).status = E →
      (h.deleteRequest E ctx).result = Except.ok () ∧
      (h.toPlain.deleteRequest E ctx).result = Except.ok ()) := by
  refine ⟨rfl, ?_, ?_, ?_, ?_, ?_, ?_, ?_, ?_⟩
  · cases hc : computeUrl h.baseUrl h.defaultBaseUrl h.apiPath h.queryParams <;>
      simp only [RequestHandler.getRequest, PlainRequestHandler.getRequest,
        RequestHandler.getUrl, PlainRequestHandler.getUrl,
        RequestHandler.toPlain, hc]; (repeat' split) <;> rfl
  · cases hc : computeUrl h.baseUrl h.defaultBaseUrl h.apiPath h.queryParams <;>
      simp only [RequestHandler.postRequest, PlainRequestHandler.postRequest,
        RequestHandler.getUrl, PlainRequestHandler.getUrl,
        RequestHandler.toPlain, hc]; (repeat' split) <;> rfl
  · cases hc : computeUrl h.baseUrl h.defaultBaseUrl h.apiPath h.queryParams <;>
      simp only [RequestHandler.putRequest, PlainRequestHandler.putRequest,
        RequestHandler.getUrl, PlainRequestHandler.getUrl,
        RequestHandler.toPlain, hc]; (repeat' split) <;> rfl
  · cases hc : computeUrl h.baseUrl h.defaultBaseUrl h.apiPath h.queryParams <;>
      simp only [RequestHandler.deleteRequest, PlainRequestHandler.deleteRequest,
        RequestHandler.getUrl, PlainRequestHandler.getUrl,
        RequestHandler.toPlain, hc]; (repeat' split) <;> rfl
  · intro u b hu hs hj
    have hu2 : computeUrl h.baseUrl h.defaultBaseUrl h.apiPath h.queryParams =
      some u := hu
    constructor
    · simp [RequestHandler.getRequest, hu, hs, hj,
        RequestHandler.statusCodeValidator]
    · simp [PlainRequestHandler.getRequest, PlainRequestHandler.getUrl,
        RequestHandler.toPlain, hu2, hs, hj]
  · intro u b hu hs hj
    have hu2 : computeUrl h.baseUrl h.defaultBaseUrl h.apiPath h.queryParams =
      some u := hu
    constructor
    · simp [RequestHandler.postRequest, hu, hs, hj,
        RequestHandler.statusCodeValidator]
    · simp [PlainRequestHandler.postRequest, PlainRequestHandler.getUrl,
        RequestHandler.toPlain, hu2, hs, hj]
  · intro u b hu hs hj
    have hu2 : computeUrl h.baseUrl h.defaultBaseUrl h.apiPath h.queryParams =
      some u := hu
    constructor
    · simp [RequestHandler.putRequest, hu, hs, hj,
        RequestHandler.statusCodeValidator]
    · simp [PlainRequestHandler.putRequest, PlainRequestHandler.getUrl,
        RequestHandler.toPlain, hu2, hs, hj]
  · intro u hu hs
    have hu2 : computeUrl h.baseUrl h.defaultBaseUrl h.apiPath h.queryParams =
      some u := hu
    constructor
    · simp [RequestHandler.deleteRequest, hu, hs,
        RequestHandler.statusCodeValidator]
    · simp [PlainRequestHandler.deleteRequest, PlainRequestHandler.getUrl,
        RequestHandler.toPlain, hu2, hs]

/-- C8 witness: on a matching 200 GET both variants return the same parsed
body and issue the same request descriptor. -/
theorem variants_issue_same_request_witness :
    ((((mkRequestHandler "https://x.test" ⟨[]⟩).path "/a")).getRequest 200
        (fun _ => ⟨200, Except.ok (Json.num 7)⟩)).result =
      Except.ok (Json.num 7) ∧
    ((((mkRequestHandler "https://x.test" ⟨[]⟩).path "/a")).toPlain.getRequest
        200 (fun _ => ⟨200, Except.ok (Json.num 7)⟩)).result =
      Except.ok (Json.num 7) ∧
    ((((mkRequestHandler "https://x.test" ⟨[]⟩).path "/a")).toPlain.getRequest
        200 (fun _ => ⟨200, Except.ok (Json.num 7)⟩)).issued =
      ((((mkRequestHandler "https://x.test" ⟨[]⟩).path "/a")).getRequest 200
        (fun _ => ⟨200, Except.ok (Json.num 7)⟩)).issued := by
  have h := variants_issue_same_request
    ((mkRequestHandler "https://x.test" ⟨[]⟩).path "/a") 200
    (fun _ => ⟨200, Except.ok (Json.num 7)⟩)
  obtain ⟨hg1, hg2⟩ := h.2.2.2.2.2.1 "https://x.test/a" (Json.num 7)
    (by rfl) (by rfl) (by rfl)
  exact ⟨hg1, hg2, h.2.1⟩

/-- The enriched mismatch message contains the expected number, the actual
number, and the serialization of every entry of the logger it renders. -/
theorem mismatch_message_full (E A : Nat) (l : APILogger) :
    strIncludes (mismatchMsg E A l) (toString E) ∧
    strIncludes (mismatchMsg E A l) (toString A) ∧
    ∀ e ∈ l.recentLogs, strIncludes (mismatchMsg E A l) e.serialize := by
  obtain ⟨h1, h2, h3⟩ :=
    mismatch_message_parts (toString E) (toString A) l.getRecentLogs
  refine ⟨h1, h2, fun e he => ?_⟩
  exact List.IsInfix.trans (serialize_infix_logs he) h3

/-- C1: for every terminal verb call with expected status `E`: when the actual
status equals `E` the call throws nothing and returns the exact parsed JSON
body the responder returned (no value for DELETE); when it differs, the call
throws an error whose message contains the expected number, the actual number,
and the serialized form of every request/response pair logged so far. -/
theorem terminal_verbs_status_validation (h : RequestHandler) (E : Nat)
    (ctx : HttpCtx) (u : String) (hu : h.getUrl = some u) :
    (∀ b, (ctx ⟨"GET", u, h.apiHeaders, none⟩).json = Except.ok b →
      ((ctx ⟨"GET", u, h.apiHeaders, none⟩).status = E →
        (h.getRequest E ctx).result = Except.ok b) ∧
      ((ctx ⟨"GET", u, h.apiHeaders, none⟩).status ≠ E →
        ∃ msg, (h.getRequest E ctx).result = Except.error msg ∧
          strIncludes msg (toString E) ∧
          strIncludes msg (toString (ctx ⟨"GET", u, h.apiHeaders, none⟩).status) ∧
          ∀ e ∈ (h.getRequest E ctx).handler.logger.recentLogs,
            strIncludes msg e.serialize)) ∧
    (∀ b, (ctx ⟨"POST", u, h.apiHeaders, some h.apiBody⟩).json = Except.ok b →
      ((ctx ⟨"POST", u, h.apiHeaders, some h.apiBody⟩).status = E →
        (h.postRequest E ctx).result = Except.ok b) ∧
      ((ctx ⟨"POST", u, h.apiHeaders, some h.apiBody⟩).status ≠ E →
        ∃ msg, (h.postRequest E ctx).result = Except.error msg ∧
          strIncludes msg (toString E) ∧
          strIncludes msg
            (toString (ctx ⟨"POST", u, h.apiHeaders, some h.apiBody⟩).status) ∧
          ∀ e ∈ (h.postRequest E ctx).handler.logger.recentLogs,
            strIncludes msg e.serialize)) ∧
    (∀ b, (ctx ⟨"PUT", u, h.apiHeaders, some h.apiBody⟩).json = Except.ok b →
      ((ctx ⟨"PUT", u, h.apiHeaders, some h.apiBody⟩).status = E →
        (h.putRequest E ctx).result = Except.ok b) ∧
      ((ctx ⟨"PUT", u, h.apiHeaders, some h.apiBody⟩).status ≠ E →
        ∃ msg, (h.putRequest E ctx).result = Except.error msg ∧
          strIncludes msg (toString E) ∧
          strIncludes msg
            (toString (ctx ⟨"PUT", u, h.apiHeaders, some h.apiBody⟩).status) ∧
          ∀ e ∈ (h.putRequest E ctx).handler.logger.recentLogs,
            strIncludes msg e.serialize)) ∧
    (((ctx ⟨"DELETE", u, h.apiHeaders, none⟩).status = E →
        (h.deleteRequest E ctx).result = Except.ok ()) ∧
     ((ctx ⟨"DELETE", u, h.apiHeaders, none⟩).status ≠ E →
        ∃ msg, (h.deleteRequest E ctx).result = Except.error msg ∧
          strIncludes msg (toString E) ∧
          strIncludes msg (toString (ctx ⟨"DELETE", u, h.apiHeaders, none⟩).status) ∧
          ∀ e ∈ (h.deleteRequest E ctx).handler.logger.recentLogs,
            strIncludes msg e.serialize)) := by
  refine ⟨fun b hb => ⟨fun hs => ?_, fun hne => ?_⟩,
    fun b hb => ⟨fun hs => ?_, fun hne => ?_⟩,
    fun b hb => ⟨fun hs => ?_, fun hne => ?_⟩,
    ⟨fun hs => ?_, fun hne => ?_⟩⟩
  · simp [RequestHandler.getRequest, hu, hb, hs,
      RequestHandler.statusCodeValidator]
  · obtain ⟨m1, m2, m3⟩ := mismatch_message_full E
      ((ctx ⟨"GET", u, h.apiHeaders, none⟩).status)
      ((h.logger.logRequest "GET" u h.apiHeaders none).logResponse
        (ctx ⟨"GET", u, h.apiHeaders, none⟩).status (some b))
    refine ⟨_, ?_, m1, m2, ?_⟩
    · simp [RequestHandler.getRequest, hu, hb,
        RequestHandler.statusCodeValidator, hne, mismatchMsg]
    · simpa [RequestHandler.getRequest, hu, hb,
        RequestHandler.statusCodeValidator, hne] using m3
  · simp [RequestHandler.postRequest, hu, hb, hs,
      RequestHandler.statusCodeValidator]
  · obtain ⟨m1, m2, m3⟩ := mismatch_message_full E
      ((ctx ⟨"POST", u, h.apiHeaders, some h.apiBody⟩).status)
      ((h.logger.logRequest "POST" u h.apiHeaders (some h.apiBody)).logResponse
        (ctx ⟨"POST", u, h.apiHeaders, some h.apiBody⟩).status (some b))
    refine ⟨_, ?_, m1, m2, ?_⟩
    · simp [RequestHandler.postRequest, hu, hb,
        RequestHandler.statusCodeValidator, hne, mismatchMsg]
    · simpa [RequestHandler.postRequest, hu, hb,
        RequestHandler.statusCodeValidator, hne] using m3
  · simp [RequestHandler.putRequest, hu, hb, hs,
      RequestHandler.statusCodeValidator]
  · obtain ⟨m1, m2, m3⟩ := mismatch_message_full E
      ((ctx ⟨"PUT", u, h.apiHeaders, some h.apiBody⟩).status)
      ((h.logger.logRequest "PUT" u h.apiHeaders (some h.apiBody)).logResponse
        (ctx ⟨"PUT", u, h.apiHeaders, some h.apiBody⟩).status (some b))
    refine ⟨_, ?_, m1, m2, ?_⟩
    · simp [RequestHandler.putRequest, hu, hb,
        RequestHandler.statusCodeValidator, hne, mismatchMsg]
    · simpa [RequestHandler.putRequest, hu, hb,
        RequestHandler.statusCodeValidator, hne] using m3
  · simp [RequestHandler.deleteRequest, hu, hs,
      RequestHandler.statusCodeValidator]
  · obtain ⟨m1, m2, m3⟩ := mismatch_message_full E
      ((ctx ⟨"DELETE", u, h.apiHeaders, none⟩).status)
      ((h.logger.logRequest "DELETE" u h.apiHeaders (some h.apiBody)).logResponse
        (ctx ⟨"DELETE", u, h.apiHeaders, none⟩).status none)
    refine ⟨_, ?_, m1, m2, ?_⟩
    · simp [RequestHandler.deleteRequest, hu,
        RequestHandler.statusCodeValidator, hne, mismatchMsg]
    · simpa [RequestHandler.deleteRequest, hu,
        RequestHandler.statusCodeValidator, hne] using m3

/-- C1 witness: a GET whose responder answers 200/`"ok"` matches expectation
200 and returns the body; the same call with expectation 404 throws a message
containing `404`, `200`, and every serialized log entry. -/
theorem terminal_verbs_status_validation_witness :
    (((((mkRequestHandler "https://x.test" ⟨[]⟩).path "/a")).getRequest 200
        (fun _ => ⟨200, Except.ok (Json.str "ok")⟩)).result =
      Except.ok (Json.str "ok")) ∧
    (∃ msg,
      (((((mkRequestHandler "https://x.test" ⟨[]⟩).path "/a")).getRequest 404
          (fun _ => ⟨200, Except.ok (Json.str "ok")⟩)).result =
        Except.error msg) ∧
      strIncludes msg (toString 404) ∧
      strIncludes msg (toString 200) ∧
      ∀ e ∈ ((((mkRequestHandler "https://x.test" ⟨[]⟩).path "/a")).getRequest
          404 (fun _ => ⟨200, Except.ok (Json.str "ok")⟩)).handler.logger.recentLogs,
        strIncludes msg e.serialize) := by
  constructor
  · exact ((terminal_verbs_status_validation
      ((mkRequestHandler "https://x.test" ⟨[]⟩).path "/a") 200
      (fun _ => ⟨200, Except.ok (Json.str "ok")⟩) "https://x.test/a"
      (by rfl)).1 (Json.str "ok") (by rfl)).1 (by rfl)
  · exact ((terminal_verbs_status_validation
      ((mkRequestHandler "https://x.test" ⟨[]⟩).path "/a") 404
      (fun _ => ⟨200, Except.ok (Json.str "ok")⟩) "https://x.test/a"
      (by rfl)).1 (Json.str "ok") (by rfl)).2 (by decide)
